import Mathlib

/-!
Verification model of the OmegaLambda observation-ticket creator.

The Python source manipulates strings (CSV cells, clock strings, date
strings), a TTL-gated download cache, and a folder of ticket files.  We
embed the relevant functions as executable Lean definitions.  String
operations are implemented over the character list of a `String` with
structural (fuel-based where needed) recursion so that every definition
evaluates by kernel reduction; they mirror the semantics of the Python
`str` methods used by the source (`split` on a one-character separator,
`replace` of all non-overlapping occurrences left to right, `strip`,
`upper`, `lower`, `startswith`, `int(...)` on digit strings).
-/

namespace OmegaLambda

/-- One decimal digit of a character, if it is a digit. -/
def digitVal (c : Char) : Option Nat :=
  if '0' ≤ c && c ≤ '9' then some (c.toNat - 48) else none

/-- Parse a non-empty all-digit character list as a natural number,
mirroring Python `int(...)` on the strings the source feeds it. -/
def charsToNat : List Char → Option Nat
  | [] => none
  | [c] => digitVal c
  | c :: cs =>
    match digitVal c, charsToNat cs with
    | some d, some n => some (d * 10 ^ cs.length + n)
    | _, _ => none

/-- Python `s.split(sep)` for a one-character separator. -/
def charsSplitOn (sep : Char) : List Char → List (List Char)
  | [] => [[]]
  | c :: cs =>
    let r := charsSplitOn sep cs
    if c == sep then [] :: r
    else
      match r with
      | [] => [[c]]
      | g :: gs => (c :: g) :: gs

/-- Fuel-based worker for `charsReplace`; one unit of fuel per consumed
character position, so fuel equal to the list length suffices. -/
def charsReplaceAux (pat rep : List Char) : Nat → List Char → List Char
  | 0, l => l
  | _, [] => []
  | fuel + 1, c :: cs =>
    if pat.isPrefixOf (c :: cs) then
      rep ++ charsReplaceAux pat rep fuel (List.drop (pat.length - 1) cs)
    else
      c :: charsReplaceAux pat rep fuel cs

/-- Python `s.replace(pat, rep)`: replace every non-overlapping
occurrence, scanning left to right (pat is never empty in the source). -/
def charsReplace (pat rep l : List Char) : List Char :=
  if pat.isEmpty then l else charsReplaceAux pat rep l.length l

/-- Whitespace characters stripped by Python `str.strip()`. -/
def isSpaceChar (c : Char) : Bool :=
  c == ' ' || c == '\t' || c == '\n' || c == '\r' || c == '\x0b' || c == '\x0c'

/-- Python `s.strip()`. -/
def charsTrim (l : List Char) : List Char :=
  ((l.dropWhile isSpaceChar).reverse.dropWhile isSpaceChar).reverse

/-- `str.split` lifted to `String`. -/
def strSplitOn (sep : Char) (s : String) : List String :=
  (charsSplitOn sep s.data).map String.mk

/-- `str.replace` lifted to `String`. -/
def strReplace (pat rep s : String) : String :=
  String.mk (charsReplace pat.data rep.data s.data)

/-- `str.strip` lifted to `String`. -/
def strTrim (s : String) : String := String.mk (charsTrim s.data)

/-- `str.upper` (the source only feeds it ASCII names). -/
def strUpper (s : String) : String := String.mk (s.data.map Char.toUpper)

/-- `str.lower` (the source only feeds it ASCII filter names). -/
def strLower (s : String) : String := String.mk (s.data.map Char.toLower)

/-- `str.startswith` lifted to `String`. -/
def strStartsWith (pat s : String) : Bool := pat.data.isPrefixOf s.data

/-- `int(s)` on a string box value. -/
def strToNat (s : String) : Option Nat := charsToNat s.data

/-- Length of a string, via its character list. -/
def strLen (s : String) : Nat := s.data.length

/-- Zero-pad a natural number to two digits, as Python `%H`/`%M`/`%S`
and ISO date formatting do. -/
def pad2 (n : Nat) : String := if n < 10 then "0" ++ toString n else toString n

/-- Zero-pad a year to four digits, as Python `%Y` formatting does. -/
def pad4 (n : Nat) : String :=
  String.mk (List.replicate (4 - (toString n).length) '0') ++ toString n

/-- A Gregorian calendar date, mirroring Python `datetime.date`. -/
structure Date where
  year : Nat
  month : Nat
  day : Nat
deriving DecidableEq, Repr

/-- Gregorian leap-year rule. -/
def isLeap (y : Nat) : Bool := (y % 4 == 0 && y % 100 != 0) || y % 400 == 0

/-- Number of days in a month. -/
def daysInMonth (y m : Nat) : Nat :=
  if m == 2 then (if isLeap y then 29 else 28)
  else if m == 4 || m == 6 || m == 9 || m == 11 then 30
  else 31

/-- The calendar day after `d`: Python `date + timedelta(days=1)`. -/
def nextDay (d : Date) : Date :=
  if d.day < daysInMonth d.year d.month then ⟨d.year, d.month, d.day + 1⟩
  else if d.month < 12 then ⟨d.year, d.month + 1, 1⟩
  else ⟨d.year + 1, 1, 1⟩

/-- The calendar day before `d`: Python `date - timedelta(days=1)`. -/
def prevDay (d : Date) : Date :=
  if 1 < d.day then ⟨d.year, d.month, d.day - 1⟩
  else if 1 < d.month then ⟨d.year, d.month - 1, daysInMonth d.year (d.month - 1)⟩
  else ⟨d.year - 1, 12, 31⟩

/-- Python `str(date)`: ISO `YYYY-MM-DD`. -/
def dateStr (d : Date) : String :=
  pad4 d.year ++ "-" ++ pad2 d.month ++ "-" ++ pad2 d.day

/-- Python `date.strftime("%Y%m%d")`. -/
def yyyymmdd (d : Date) : String := pad4 d.year ++ pad2 d.month ++ pad2 d.day

/-- `a <= b` on dates (Python compares `datetime.date` values this way). -/
def dateLe (a b : Date) : Bool :=
  a.year < b.year ||
    (a.year == b.year &&
      (a.month < b.month || (a.month == b.month && a.day ≤ b.day)))

/-- Python `datetime.strptime(s, "%H:%M")`, returning hour and minute;
`none` models the `ValueError` raised on a malformed clock string. -/
def parseClock (s : String) : Option (Nat × Nat) :=
  match strSplitOn ':' s with
  | [h, m] =>
    match strToNat h, strToNat m with
    | some hh, some mm =>
      if 0 < strLen h && strLen h ≤ 2 && 0 < strLen m && strLen m ≤ 2
          && hh < 24 && mm < 60 then
        some (hh, mm)
      else none
    | _, _ => none
  | _ => none

/-- Python `datetime.strptime(s, "%Y-%m-%d").date()`; `none` models the
`ValueError` raised on a malformed date string. -/
def parseDate (s : String) : Option Date :=
  match strSplitOn '-' s with
  | [y, m, d] =>
    match strToNat y, strToNat m, strToNat d with
    | some yy, some mm, some dd =>
      if 1 ≤ mm && mm ≤ 12 && 1 ≤ dd && dd ≤ daysInMonth yy mm then
        some ⟨yy, mm, dd⟩
      else none
    | _, _, _ => none
  | _ => none

/-- Python `datetime.strptime(s, "%Y-%m-%d %H:%M:%S")`, returning the
date and the hour/minute/second fields. -/
def parseDateTime (s : String) : Option (Date × Nat × Nat × Nat) :=
  match strSplitOn ' ' s with
  | [ds, ts] =>
    match parseDate ds, strSplitOn ':' ts with
    | some d, [h, mi, se] =>
      match strToNat h, strToNat mi, strToNat se with
      | some hh, some mm, some ss =>
        if hh < 24 && mm < 60 && ss < 60 then some (d, hh, mm, ss) else none
      | _, _, _ => none
    | _, _ => none
  | _ => none

/-! ## Remote-data cache (`check_toi` and `target_grab`)

Each cached resource has a policy deciding, from whether a local copy
exists and its age in seconds, whether a network request is issued.
Each policy transcribes the corresponding condition in the source. -/

/-- The 12-hour TTL used by all three resources, in seconds. -/
def ttlSeconds : Nat := 12 * 3600

/-- `check_toi`, `google.csv`: `requests.get` runs unconditionally, with
no freshness check on any existing local copy. -/
def scheduleNetworkCall (_ex : Bool) (_age : Nat) : Bool := true

/-- `check_toi`, `satellites.txt`: the local copy is read back iff it
exists and `now - mtime < timedelta(hours=12)`; otherwise a network
request is issued. -/
def satellitesNetworkCall (ex : Bool) (age : Nat) : Bool :=
  !(ex && decide (age < ttlSeconds))

/-- `target_grab`, `info_chart.csv`: a network request is issued iff the
local copy is missing or `now - mtime > timedelta(hours=12)`. -/
def ephemerisNetworkCall (ex : Bool) (age : Nat) : Bool :=
  !ex || decide (age > ttlSeconds)

/-- Cache state for one resource: `some t` when a local copy exists and
was last fetched (mtime) at time `t`. -/
structure CacheState where
  copy : Option Nat
deriving DecidableEq, Repr

/-- One fetch at time `now` under a policy: on a network call the local
copy is overwritten (mtime := now); otherwise the state is unchanged.
Returns the new state and whether a network call was made. -/
def fetchStep (policy : Bool → Nat → Bool) (st : CacheState) (now : Nat) :
    CacheState × Bool :=
  let age := match st.copy with | some t => now - t | none => 0
  if policy st.copy.isSome age then (⟨some now⟩, true) else (st, false)

/-- Total number of network calls made by two consecutive fetches at
times `t1` then `t2`. -/
def callsOfTwoFetches (policy : Bool → Nat → Bool) (st : CacheState)
    (t1 t2 : Nat) : Nat :=
  let r1 := fetchStep policy st t1
  let r2 := fetchStep policy r1.1 t2
  (if r1.2 then 1 else 0) + (if r2.2 then 1 else 0)

/-! ## Filter and exposure parsing (`list_split`) -/

/-- Result of `list_split` on the filter box: a single scalar value or
an ordered list.  The Python multi-value branch wraps the list in
`json.dumps`; the value is modelled as the list that string encodes. -/
inductive FilterVal where
  | scalar : String → FilterVal
  | list : List String → FilterVal
deriving DecidableEq, Repr

/-- Result of `list_split` on the exposure box.  The Python `float(...)`
conversion is not modelled; values stay as the split tokens. -/
inductive ExpVal where
  | scalar : String → ExpVal
  | list : List String → ExpVal
deriving DecidableEq, Repr

/-- `ii if ii == 'Ha' else ii.lower()`. -/
def haNorm (s : String) : String := if s == "Ha" then s else strLower s

/-- `entry.get().replace(' ', '').split(",")`. -/
def filterTokens (s : String) : List String := strSplitOn ',' (strReplace " " "" s)

/-- `list_split` on the filter box (`entry == filter_` branch). -/
def list_split_filter (s : String) : FilterVal :=
  let i := filterTokens s
  if 1 < i.length then .list (i.map haNorm)
  else .scalar (haNorm (i.headD ""))

/-- `list_split` on the exposure box (`entry == exposure_time` branch),
with the `float` conversion left at the token level. -/
def list_split_exp (s : String) : ExpVal :=
  let i := filterTokens s
  if 1 < i.length then .list i else .scalar (i.headD "")

/-- The spec's wording of the filter rule: lowercase every token except
the literal `"Ha"`, keep the input order, collapse a single value to a
scalar and keep multiple values as a list. -/
def filterSpecOfClaim (s : String) : FilterVal :=
  match filterTokens s with
  | [t] => .scalar (haNorm t)
  | ts => .list (ts.map haNorm)

/-! ## Satellite catalog (`check_toi`, fetch branch)

The Python `SATELLITES` set is modelled as a list; the source only
consumes it through membership tests.  Lines whose first character is
`'1'` or `'2'` (TLE element lines) are skipped; every other line is
added uppercased after stripping, and, when it contains `'('`, the
parenthetical-stripped alias is added as well.  (Python indexes
`line[0]`, which raises on an empty line; lines here are non-empty in
the feed.) -/

/-- First character of a line, as `line[0]`. -/
def lineHead (s : String) : Char := s.data.headD 'x'

/-- Build the satellite catalog from the TLE feed's lines. -/
def tleSatellites : List String → List String
  | [] => []
  | line :: rest =>
    if lineHead line != '1' && lineHead line != '2' then
      let l := strTrim line
      let extra :=
        if l.data.contains '(' then
          [strUpper (strTrim ((strSplitOn '(' l).headD ""))]
        else []
      strUpper l :: (extra ++ tleSatellites rest)
    else tleSatellites rest

/-! ## Schedule rows and `target_grab` -/

/-- One row of the schedule sheet as read through pandas: cell values as
strings (a missing cell prints as `"nan"`); `none` in the optional
fields means the sheet lacks that column entirely. -/
structure ScheduleRow where
  target : String
  nod : String
  start : String
  endT : String
  filter : String
  exp : String
  camera : Option String
  satelliteTracking : Option Int
  trackingMode : Option Int
deriving Repr

/-- One row of the ephemeris (`info_chart.csv`) table. -/
structure EphemRow where
  toi : String
  ra : String
  dec : String
deriving Repr

/-- Linear scan for the first ephemeris row whose `TOI` cell equals the
lookup key, as the `for y in range(...)` loop with `break`. -/
def lookupEphem : List EphemRow → String → Option (String × String)
  | [], _ => none
  | r :: rs, key => if r.toi == key then some (r.ra, r.dec) else lookupEphem rs key

/-- Ephemeris lookup key: strip spaces and the catalog prefix `"TOI"`
when the identifier starts with it (`toi.replace(" ", "").replace("TOI", "")`). -/
def ephemKey (target : String) : String :=
  if strStartsWith "TOI" target then strReplace "TOI" "" (strReplace " " "" target)
  else target

/-- Display/filename form of the identifier: strip spaces and replace
periods by hyphens when it starts with `"TOI"`. -/
def displayName (target : String) : String :=
  if strStartsWith "TOI" target then strReplace "." "-" (strReplace " " "" target)
  else target

/-- The widget state `target_grab` leaves behind: the text boxes (all
strings) and the checkbox/option variables it sets. -/
structure Prefill where
  name : String
  ra : String
  dec : String
  startTime : String
  endTime : String
  filter : String
  nExposures : String
  expTime : String
  camera : String
  satelliteTracking : Int
  trackingMode : Int
  selfGuide : Int
deriving Repr

/-- `str(x)` of an optional coordinate cell: `str(None)` is `"None"`. -/
def strOfOpt : Option String → String
  | none => "None"
  | some v => v

/-- `target_grab` for a selected row: `startDate` is the `YYYY-MM-DD`
prefix of the selection label, `row` the sheet row located through the
index embedded in the label, `ephem` the ephemeris table.  `none`
models the exceptions Python raises on a malformed clock string
(`strptime`) or when the sheet lacks the tracking columns (`NameError`
at the final `set` calls). -/
def target_grab (startDate : Date) (row : ScheduleRow)
    (ephem : List EphemRow) : Option Prefill :=
  let coords := lookupEphem ephem (ephemKey row.target)
  match parseClock row.start, parseClock row.endT with
  | some (hs, ms), some (he, me) =>
    let timeS := pad2 hs ++ ":" ++ pad2 ms ++ ":00"
    let timeE := pad2 he ++ ":" ++ pad2 me ++ ":00"
    let dayStart := if hs ≤ 12 then dateStr (nextDay startDate) else dateStr startDate
    let dayEnd := if he ≤ 12 then dateStr (nextDay startDate) else dateStr startDate
    match row.satelliteTracking, row.trackingMode with
    | some satData, some modeData =>
      some
        { name := displayName row.target
          ra := strOfOpt (coords.map Prod.fst)
          dec := strOfOpt (coords.map Prod.snd)
          startTime := dayStart ++ " " ++ timeS
          endTime := dayEnd ++ " " ++ timeE
          filter := row.filter
          nExposures := toString (100000 : Nat)
          expTime := strReplace "s" "" row.exp
          camera := row.camera.getD "CCD"
          satelliteTracking := satData
          trackingMode := modeData
          selfGuide := if satData != 0 then 0 else 1 }
    | _, _ => none
  | _, _ => none

/-! ## Ticket building (`savetxt`, `dst_check`) -/

/-- `dst_check()`: UTC-offset suffix from the daylight-saving status. -/
def dst_check (isDst : Bool) : String := if isDst then "-04:00" else "-05:00"

/-- Checkbox variables not set by `target_grab`. -/
structure Flags where
  guide : Int
  cycleFilter : Int
  initialFocus : Int
deriving Repr

/-- The serialized observation ticket (the `details` record plus the
fixed envelope type). -/
structure Ticket where
  name : String
  ra : Option String
  dec : Option String
  start_time : String
  end_time : String
  filter : FilterVal
  num : Nat
  exp_time : ExpVal
  camera : String
  self_guide : Bool
  guide : Bool
  cycle_filter : Bool
  initial_focus : Bool
  satellite_tracking : Bool
  satellite_tracking_mode : Int
deriving Repr

/-- The ticket record `savetxt` assembles from the boxes and flags.
`int(...)` on the exposures box is `getD 0`-total here; the box always
holds the digit string `target_grab` put there. -/
def buildTicket (isDst : Bool) (p : Prefill) (fl : Flags) : Ticket :=
  let dst := dst_check isDst
  { name := p.name
    ra := if p.ra == "None" then none else some p.ra
    dec := if p.dec == "None" then none else some p.dec
    start_time := p.startTime ++ dst
    end_time := p.endTime ++ dst
    filter := list_split_filter p.filter
    num := (strToNat p.nExposures).getD 0
    exp_time := list_split_exp p.expTime
    camera := p.camera
    self_guide := p.selfGuide != 0
    guide := fl.guide != 0
    cycle_filter := fl.cycleFilter != 0
    initial_focus := fl.initialFocus != 0
    satellite_tracking := p.satelliteTracking != 0
    satellite_tracking_mode := p.trackingMode }

/-- `savetxt`: the satellite check runs first; on a miss the function
returns before any file is written, and the error dialog names the
requested identifier (modelled as `Except.error` carrying the name).
Otherwise the ticket record is assembled and written. -/
def savetxt (sats : List String) (isDst : Bool) (p : Prefill) (fl : Flags) :
    Except String Ticket :=
  if p.satelliteTracking != 0 && !(sats.contains (strUpper p.name)) then
    .error p.name
  else
    .ok (buildTicket isDst p fl)

/-- Whether a `savetxt` call produced a ticket. -/
def exceptOk : Except String Ticket → Bool
  | .ok _ => true
  | .error _ => false

/-! ## Batch materialization (`save_all_auto_folders`)

A night folder is modelled as a list of `(filename, content)` pairs. -/

/-- Moving a newly created ticket file into the night folder: if a file
of the same name already exists there, the new duplicate is removed
(`os.remove`) and the folder is unchanged; otherwise the file is moved
in (`os.rename`).  Total: the collision raises no error. -/
def moveIntoFolder (folder : List (String × String)) (file : String × String) :
    List (String × String) :=
  if (folder.map Prod.fst).contains file.1 then folder else folder ++ [file]

/-- Per-ticket night folder in `save_all_auto_folders`: strip the
current DST suffix from the ticket's own `start_time`, parse it, roll
back one day when the hour is before noon, and format as `YYYYMMDD`. -/
def ticketFolder (nowDst : String) (ticketStart : String) : Option String :=
  match parseDateTime (strReplace nowDst "" ticketStart) with
  | some (d, h, _, _) => some (yyyymmdd (if h < 12 then prevDay d else d))
  | none => none

/-- Folder assignment of a whole batch: one `ticketFolder` per ticket,
each from that ticket's own start timestamp. -/
def batchFolders (nowDst : String) (starts : List String) : List (Option String) :=
  starts.map (ticketFolder nowDst)

/-- The `tonight` date computed after the loop from the process clock
(hour ≥ 12 gives today, else yesterday); it only names the folder in
the suggested shell command, not where any ticket is moved. -/
def tonightFolder (today : Date) (nowHour : Nat) : String :=
  yyyymmdd (if 12 ≤ nowHour then today else prevDay today)

/-! ## Schedule listing (`create_list`, current and legacy versions) -/

/-- One sheet row as `create_list` reads it; the tracking cells are
present in the sheets this function is run on. -/
structure SheetRow where
  target : String
  nod : String
  start : String
  exp : String
  filter : String
  satelliteTracking : Int
  trackingMode : Int
deriving Repr

/-- Target normalization applied before the `nan` checks:
`target.replace(" ", "").replace(".", "-")` when it starts with `"TOI"`. -/
def normTarget (t : String) : String :=
  if strStartsWith "TOI" t then strReplace "." "-" (strReplace " " "" t) else t

/-- Listing entry for row `x` with parsed date `d`:
`f"{row_date}: {target}_{Start}{sat_mode}_{Exp}_{Filter}_#{x}"`. -/
def rowDisplay (x : Nat) (r : SheetRow) (d : Date) : String :=
  let satMode :=
    if r.satelliteTracking != 0 then "_Mode" ++ toString r.trackingMode else ""
  dateStr d ++ ": " ++ normTarget r.target ++ "_" ++ r.start ++ satMode ++ "_"
    ++ r.exp ++ "_" ++ r.filter ++ "_#" ++ toString x

/-- Worker for the current `create_list`, carrying the running row
index; `Except.error` models the `ValueError` `strptime` raises on a
malformed non-`nan` date cell, which aborts the whole listing. -/
def create_listAux (today : Date) : Nat → List SheetRow → Except String (List String)
  | _, [] => .ok []
  | x, r :: rest =>
    let target := normTarget r.target
    if target != "nan" && r.nod != "nan" then
      match parseDate r.nod with
      | none => .error r.nod
      | some d =>
        if dateLe today d && target != "NaN" then
          match create_listAux today (x + 1) rest with
          | .ok tl => .ok (rowDisplay x r d :: tl)
          | .error e => .error e
        else create_listAux today (x + 1) rest
    else create_listAux today (x + 1) rest

/-- The current creator's `create_list`. -/
def create_list (today : Date) (sheet : List SheetRow) : Except String (List String) :=
  create_listAux today 0 sheet

/-- Whether a row passes the current `create_list` filter. -/
def rowQualifies (today : Date) (r : SheetRow) : Bool :=
  (normTarget r.target != "nan" && r.nod != "nan") &&
    match parseDate r.nod with
    | some d => dateLe today d && normTarget r.target != "NaN"
    | none => false

/-- The listing entry a qualifying row contributes. -/
def rowEntry (today : Date) (x : Nat) (r : SheetRow) : String :=
  match parseDate r.nod with
  | some d => if rowQualifies today r then rowDisplay x r d else ""
  | none => ""

/-- Rows paired with their sheet indices, starting at `x`. -/
def enumRows (x : Nat) : List SheetRow → List (Nat × SheetRow)
  | [] => []
  | r :: rest => (x, r) :: enumRows (x + 1) rest

/-- The listing the spec describes: exactly the qualifying rows, in the
sheet's natural order, each rendered with its own index. -/
def listingSpec (today : Date) (sheet : List SheetRow) : List String :=
  ((enumRows 0 sheet).filter (fun p => rowQualifies today p.2)).map
    (fun p => rowEntry today p.1 p.2)

/-- Worker for the legacy creator's `create_list`
(`Observation_ticket_creator.pyw`): same filter, but the listing stops
growing once `num` reaches 11, entries are `f"{row_date}: {Target}"`
with the raw target cell, and the counter only advances on appended
rows. -/
def create_list_legacyAux (today : Date) : Nat → List SheetRow → Except String (List String)
  | _, [] => .ok []
  | num, r :: rest =>
    if num < 11 && r.target != "nan" && r.nod != "nan" then
      match parseDate r.nod with
      | none => .error r.nod
      | some d =>
        if dateLe today d && r.target != "NaN" then
          match create_list_legacyAux today (num + 1) rest with
          | .ok tl => .ok ((dateStr d ++ ": " ++ r.target) :: tl)
          | .error e => .error e
        else create_list_legacyAux today num rest
    else create_list_legacyAux today num rest

/-- The legacy creator's `create_list`. -/
def create_list_legacy (today : Date) (sheet : List SheetRow) : Except String (List String) :=
  create_list_legacyAux today 0 sheet

/-- Whether a row passes the legacy filter, ignoring the cap. -/
def rowQualifiesLegacy (today : Date) (r : SheetRow) : Bool :=
  r.target != "nan" && r.nod != "nan" &&
    match parseDate r.nod with
    | some d => dateLe today d && r.target != "NaN"
    | none => false

/-- Length of a successful listing (0 for the error case). -/
def listingLength : Except String (List String) → Nat
  | .ok l => l.length
  | .error _ => 0

/-- The entries of a successful listing ([] for the error case). -/
def okList : Except String (List String) → List String
  | .ok l => l
  | .error _ => []

/-! ## Concrete sample data used to instantiate the statements -/

/-- A schedule row with satellite tracking enabled. -/
def sampleRow : ScheduleRow :=
  { target := "TOI 1234.01", nod := "2024-06-01", start := "23:59", endT := "00:30",
    filter := "Ha, v, R", exp := "30s", camera := none,
    satelliteTracking := some 1, trackingMode := some 2 }

/-- A schedule row with satellite tracking disabled. -/
def sampleRow0 : ScheduleRow :=
  { target := "TOI 1234.01", nod := "2024-06-01", start := "23:59", endT := "00:30",
    filter := "Ha, v, R", exp := "30s", camera := none,
    satelliteTracking := some 0, trackingMode := some 0 }

/-- A qualifying sheet row, used to exercise the listing cap. -/
def capSheetRow : SheetRow :=
  { target := "ABC", nod := "2025-01-02", start := "23:00", exp := "30s",
    filter := "v", satelliteTracking := 0, trackingMode := 0 }

/-- A pre-filled widget state requesting satellite tracking of `"iss"`. -/
def samplePrefill : Prefill :=
  { name := "iss", ra := "None", dec := "None", startTime := "2024-06-01 23:59:00",
    endTime := "2024-06-02 00:30:00", filter := "Ha, v, R", nExposures := "100000",
    expTime := "30", camera := "CCD", satelliteTracking := 1, trackingMode := 2,
    selfGuide := 0 }

/-- Checkbox flags used to instantiate the statements. -/
def sampleFlags : Flags := { guide := 0, cycleFilter := 0, initialFocus := 1 }

/-- A three-line TLE feed: one name line and its two element lines. -/
def sampleTLE : List String := ["ISS (ZARYA)", "1 25544U 98067A", "2 25544"]

/-! ## Shared lemmas -/

/-- `split` never returns an empty list of groups. -/
theorem charsSplitOn_ne_nil (sep : Char) (l : List Char) :
    charsSplitOn sep l ≠ [] := by
  induction l with
  | nil => simp [charsSplitOn]
  | cons c cs ih =>
    simp only [charsSplitOn]
    split
    · simp
    · rcases h : charsSplitOn sep cs with _ | ⟨g, gs⟩
      · exact absurd h ih
      · simp

/-- The token list of a filter box is never empty. -/
theorem filterTokens_ne_nil (s : String) : filterTokens s ≠ [] := by
  unfold filterTokens strSplitOn
  intro h
  exact charsSplitOn_ne_nil ',' (strReplace " " "" s).data (List.map_eq_nil_iff.mp h)

/-- A ticket produced by `savetxt` is the record `buildTicket`
assembles. -/
theorem savetxt_ok_ticket (sats : List String) (isDst : Bool) (p : Prefill)
    (fl : Flags) (t : Ticket) (hok : savetxt sats isDst p fl = Except.ok t) :
    t = buildTicket isDst p fl := by
  unfold savetxt at hok
  split at hok
  · exact absurd hok (by simp)
  · exact (Except.ok.inj hok).symm

/-! ## Claim C1: TTL-gated remote cache -/

/-- Claim C1 fails on the schedule sheet: `check_toi` issues the
network request for `google.csv` unconditionally, so even with a local
copy of age 0 (younger than any TTL) a network call is made, and two
consecutive fetches make two network calls, not at most one. -/
theorem schedule_sheet_refetch_counterexample :
    scheduleNetworkCall true 0 = true ∧
    callsOfTwoFetches scheduleNetworkCall ⟨some 0⟩ 0 1 = 2 := by
  decide

/-- Claim C1, amended: the TTL rule holds for the satellite catalog and
the ephemeris table.  For either resource, a fetch that finds a local
copy younger than the 12-hour TTL returns it without a network call,
and two consecutive fetches within the TTL window make at most one
network call in total.  (The schedule sheet is re-fetched on every
load.) -/
theorem cache_ttl_at_most_one_call (st : CacheState) (t1 t2 : Nat)
    (_h1 : t1 ≤ t2) (h2 : t2 - t1 < ttlSeconds) :
    callsOfTwoFetches satellitesNetworkCall st t1 t2 ≤ 1 ∧
    callsOfTwoFetches ephemerisNetworkCall st t1 t2 ≤ 1 ∧
    (∀ t, t1 - t < ttlSeconds →
      fetchStep satellitesNetworkCall ⟨some t⟩ t1 = (⟨some t⟩, false)) ∧
    (∀ t, t1 - t < ttlSeconds →
      fetchStep ephemerisNetworkCall ⟨some t⟩ t1 = (⟨some t⟩, false)) := by
  obtain ⟨copy⟩ := st
  refine ⟨?_, ?_, ?_, ?_⟩
  · cases copy with
    | none => simp [callsOfTwoFetches, fetchStep, satellitesNetworkCall, h2]
    | some t =>
      by_cases hfresh : t1 - t < ttlSeconds
      · simp only [callsOfTwoFetches, fetchStep, satellitesNetworkCall]
        simp [hfresh]
        split <;> simp
      · simp [callsOfTwoFetches, fetchStep, satellitesNetworkCall, hfresh, h2]
  · cases copy with
    | none => simp [callsOfTwoFetches, fetchStep, ephemerisNetworkCall, Nat.not_lt.mpr, h2, Nat.not_lt_of_lt]
    | some t =>
      by_cases hstale : t1 - t > ttlSeconds
      · simp [callsOfTwoFetches, fetchStep, ephemerisNetworkCall, hstale, Nat.not_lt_of_lt h2]
      · simp only [callsOfTwoFetches, fetchStep, ephemerisNetworkCall]
        simp [hstale]
        split <;> simp
  · intro t ht
    simp [fetchStep, satellitesNetworkCall, ht]
  · intro t ht
    simp [fetchStep, ephemerisNetworkCall, Nat.not_lt_of_lt ht]

/-- Witness for `cache_ttl_at_most_one_call` at a concrete state and
pair of fetch times inside the TTL window. -/
theorem cache_ttl_at_most_one_call_witness :
    callsOfTwoFetches satellitesNetworkCall ⟨none⟩ 0 100 ≤ 1 ∧
    callsOfTwoFetches ephemerisNetworkCall ⟨none⟩ 0 100 ≤ 1 ∧
    (∀ t, 0 - t < ttlSeconds →
      fetchStep satellitesNetworkCall ⟨some t⟩ 0 = (⟨some t⟩, false)) ∧
    (∀ t, 0 - t < ttlSeconds →
      fetchStep ephemerisNetworkCall ⟨some t⟩ 0 = (⟨some t⟩, false)) :=
  cache_ttl_at_most_one_call ⟨none⟩ 0 100 (by decide) (by decide)

/-! ## Claim C3: filter-spec parsing -/

/-- Claim C3: parsing a comma-separated filter specification lowercases
every token except the literal `"Ha"`, preserves the input order,
collapses a single value to a scalar and yields an ordered list for
multiple values; `"Ha, v, R"` gives `["Ha", "v", "r"]` and `"v"` gives
the scalar `"v"`. -/
theorem filter_spec_parsing :
    list_split_filter "Ha, v, R" = .list ["Ha", "v", "r"] ∧
    list_split_filter "v" = .scalar "v" ∧
    ∀ s, list_split_filter s = filterSpecOfClaim s := by
  refine ⟨by decide, by decide, fun s => ?_⟩
  unfold list_split_filter filterSpecOfClaim
  rcases h : filterTokens s with _ | ⟨a, _ | ⟨b, l⟩⟩
  · exact absurd h (filterTokens_ne_nil s)
  · simp
  · simp

/-! ## Claim C4: satellite-name validation -/

/-- A name in the catalog built from a longer feed stays in the catalog. -/
theorem mem_tleSatellites_cons (hd : String) (tl : List String) (x : String)
    (hx : x ∈ tleSatellites tl) : x ∈ tleSatellites (hd :: tl) := by
  simp only [tleSatellites]
  split
  · exact List.mem_cons_of_mem _ (List.mem_append_right _ hx)
  · exact hx

/-- Every non-element feed line contributes its uppercased stripped
name, and, when it has a parenthetical, the stripped alias as well. -/
theorem tleSatellites_covers (line : String)
    (h1 : lineHead line ≠ '1') (h2 : lineHead line ≠ '2') :
    ∀ lines, line ∈ lines →
      strUpper (strTrim line) ∈ tleSatellites lines ∧
      ((strTrim line).data.contains '(' = true →
        strUpper (strTrim ((strSplitOn '(' (strTrim line)).headD "")) ∈
          tleSatellites lines) := by
  intro lines
  induction lines with
  | nil => intro h; cases h
  | cons hd tl ih =>
    intro hmem
    rcases List.mem_cons.mp hmem with rfl | hmem2
    · have hcond : (lineHead line != '1' && lineHead line != '2') = true := by
        simp [h1, h2]
      constructor
      · simp only [tleSatellites, hcond, if_true]
        exact List.mem_cons_self _ _
      · intro hpar
        have hpar2 : '(' ∈ (strTrim line).data := by simpa using hpar
        simp only [tleSatellites, hcond, if_true]
        refine List.mem_cons_of_mem _ (List.mem_append_left _ ?_)
        simp [hpar2]
    · obtain ⟨ha, hb2⟩ := ih hmem2
      exact ⟨mem_tleSatellites_cons hd tl _ ha,
        fun hp => mem_tleSatellites_cons hd tl _ (hb2 hp)⟩

/-- Claim C4: with satellite tracking requested, building succeeds iff
the uppercased name is in the catalog; on a miss the build fails with
an error naming the requested identifier and no ticket is produced; the
catalog contains each non-element TLE line uppercased plus its
parenthetical-stripped alias, so the request `"iss"` matches a catalog
built from `"ISS (ZARYA)"`; and a retried build against the same
(un-refetched) catalog with corrected input succeeds. -/
theorem satellite_membership_check (sats : List String) (isDst : Bool)
    (p : Prefill) (fl : Flags) (hsat : p.satelliteTracking ≠ 0) :
    (exceptOk (savetxt sats isDst p fl) = true ↔
      sats.contains (strUpper p.name) = true) ∧
    (sats.contains (strUpper p.name) = false →
      savetxt sats isDst p fl = Except.error p.name) ∧
    (∀ lines line, line ∈ lines → lineHead line ≠ '1' → lineHead line ≠ '2' →
      strUpper (strTrim line) ∈ tleSatellites lines ∧
      ((strTrim line).data.contains '(' = true →
        strUpper (strTrim ((strSplitOn '(' (strTrim line)).headD "")) ∈
          tleSatellites lines)) ∧
    (tleSatellites sampleTLE).contains (strUpper "iss") = true ∧
    (∀ q fl2, q.satelliteTracking ≠ 0 → sats.contains (strUpper q.name) = true →
      exceptOk (savetxt sats isDst q fl2) = true) := by
  have hb : (p.satelliteTracking != 0) = true := by simpa using hsat
  refine ⟨?_, ?_, ?_, by decide, ?_⟩
  · by_cases hc : strUpper p.name ∈ sats <;>
      simp [savetxt, exceptOk, hb, hc]
  · intro hc
    have hc2 : strUpper p.name ∉ sats := by simpa using hc
    simp [savetxt, hb, hc2]
  · intro lines line hmem h1 h2
    exact tleSatellites_covers line h1 h2 lines hmem
  · intro q fl2 hq hmemq
    have hbq : (q.satelliteTracking != 0) = true := by simpa using hq
    have hmemq2 : strUpper q.name ∈ sats := by simpa using hmemq
    simp [savetxt, exceptOk, hbq, hmemq2]

/-- Witness for `satellite_membership_check`: the catalog built from
the sample TLE feed, a prefill asking to track `"iss"`. -/
theorem satellite_membership_check_witness :
    (exceptOk (savetxt (tleSatellites sampleTLE) false samplePrefill sampleFlags) = true ↔
      (tleSatellites sampleTLE).contains (strUpper samplePrefill.name) = true) ∧
    ((tleSatellites sampleTLE).contains (strUpper samplePrefill.name) = false →
      savetxt (tleSatellites sampleTLE) false samplePrefill sampleFlags =
        Except.error samplePrefill.name) ∧
    (∀ lines line, line ∈ lines → lineHead line ≠ '1' → lineHead line ≠ '2' →
      strUpper (strTrim line) ∈ tleSatellites lines ∧
      ((strTrim line).data.contains '(' = true →
        strUpper (strTrim ((strSplitOn '(' (strTrim line)).headD "")) ∈
          tleSatellites lines)) ∧
    (tleSatellites sampleTLE).contains (strUpper "iss") = true ∧
    (∀ q fl2, q.satelliteTracking ≠ 0 →
      (tleSatellites sampleTLE).contains (strUpper q.name) = true →
      exceptOk (savetxt (tleSatellites sampleTLE) false q fl2) = true) :=
  satellite_membership_check (tleSatellites sampleTLE) false samplePrefill
    sampleFlags (by decide)

/-! ## Claim C2: day-rollover rule -/

/-- Claim C2: for each of start and end independently, an hour ≤ 12
resolves to the day after `night_of_date` and an hour > 12 to
`night_of_date` itself, and the composed timestamp is
`<resolved date> <clock>:00` with the seconds zero-filled. -/
theorem rollover_timestamps (d : Date) (row : ScheduleRow) (ephem : List EphemRow)
    (hs ms he me : Nat) (st tm : Int)
    (hstart : parseClock row.start = some (hs, ms))
    (hend : parseClock row.endT = some (he, me))
    (hsat : row.satelliteTracking = some st)
    (hmode : row.trackingMode = some tm) :
    ∃ p, target_grab d row ephem = some p ∧
      p.startTime = dateStr (if hs ≤ 12 then nextDay d else d) ++ " "
        ++ (pad2 hs ++ ":" ++ pad2 ms ++ ":00") ∧
      p.endTime = dateStr (if he ≤ 12 then nextDay d else d) ++ " "
        ++ (pad2 he ++ ":" ++ pad2 me ++ ":00") := by
  unfold target_grab
  rw [hstart, hend, hsat, hmode]
  refine ⟨_, rfl, ?_, ?_⟩ <;> simp [apply_ite dateStr]

/-- Witness for `rollover_timestamps`: a row starting at 23:59
(pre-midnight, same night) and ending at 00:30 (post-midnight, rolled
to the next day). -/
theorem rollover_timestamps_witness :
    ∃ p, target_grab ⟨2024, 6, 1⟩ sampleRow [] = some p ∧
      p.startTime = dateStr (if 23 ≤ 12 then nextDay ⟨2024, 6, 1⟩ else ⟨2024, 6, 1⟩)
        ++ " " ++ (pad2 23 ++ ":" ++ pad2 59 ++ ":00") ∧
      p.endTime = dateStr (if 0 ≤ 12 then nextDay ⟨2024, 6, 1⟩ else ⟨2024, 6, 1⟩)
        ++ " " ++ (pad2 0 ++ ":" ++ pad2 30 ++ ":00") :=
  rollover_timestamps ⟨2024, 6, 1⟩ sampleRow [] 23 59 0 30 1 2
    (by decide) (by decide) rfl rfl

/-! ## Claim C7: missing ephemeris entry leaves coordinates null -/

/-- Claim C7: when the normalized identifier is absent from the
ephemeris catalog, target resolution still succeeds with the RA and
Dec boxes holding `"None"`, ticket building proceeds, and the
serialized ticket carries `null` for both coordinates. -/
theorem ephemeris_miss_null_coords (d : Date) (row : ScheduleRow)
    (ephem : List EphemRow) (hs ms he me : Nat) (tm : Int)
    (hmiss : lookupEphem ephem (ephemKey row.target) = none)
    (hstart : parseClock row.start = some (hs, ms))
    (hend : parseClock row.endT = some (he, me))
    (hsat : row.satelliteTracking = some 0)
    (hmode : row.trackingMode = some tm) :
    ∃ p, target_grab d row ephem = some p ∧ p.ra = "None" ∧ p.dec = "None" ∧
      ∀ sats isDst fl, ∃ t, savetxt sats isDst p fl = Except.ok t ∧
        t.ra = none ∧ t.dec = none := by
  unfold target_grab
  rw [hmiss, hstart, hend, hsat, hmode]
  refine ⟨_, rfl, rfl, rfl, ?_⟩
  intro sats isDst fl
  simp [savetxt, buildTicket, strOfOpt]

/-- Witness for `ephemeris_miss_null_coords`: the empty ephemeris
catalog misses every identifier. -/
theorem ephemeris_miss_null_coords_witness :
    ∃ p, target_grab ⟨2024, 6, 1⟩ sampleRow0 [] = some p ∧
      p.ra = "None" ∧ p.dec = "None" ∧
      ∀ sats isDst fl, ∃ t, savetxt sats isDst p fl = Except.ok t ∧
        t.ra = none ∧ t.dec = none :=
  ephemeris_miss_null_coords ⟨2024, 6, 1⟩ sampleRow0 [] 23 59 0 30 0
    rfl (by decide) (by decide) rfl rfl

/-! ## Claim C9: satellite tracking disables self-guiding -/

/-- Claim C9: resolving a row sets the self-guide flag to the negation
of the satellite-tracking flag, so a ticket pre-filled from a
satellite-tracking row never has both `satellite_tracking` and
`self_guide` true. -/
theorem satellite_tracking_disables_self_guide (d : Date) (row : ScheduleRow)
    (ephem : List EphemRow) (hs ms he me : Nat) (st tm : Int)
    (hstart : parseClock row.start = some (hs, ms))
    (hend : parseClock row.endT = some (he, me))
    (hsat : row.satelliteTracking = some st)
    (hmode : row.trackingMode = some tm) :
    ∃ p, target_grab d row ephem = some p ∧
      (st ≠ 0 → p.selfGuide = 0) ∧ (st = 0 → p.selfGuide = 1) ∧
      ∀ sats isDst fl t, savetxt sats isDst p fl = Except.ok t →
        ¬(t.satellite_tracking = true ∧ t.self_guide = true) := by
  unfold target_grab
  rw [hstart, hend, hsat, hmode]
  refine ⟨_, rfl, ?_, ?_, ?_⟩
  · intro hz
    have hb : (st != 0) = true := by simpa using hz
    simp [hb]
  · intro hz
    subst hz
    simp
  · intro sats isDst fl t hok
    have ht := savetxt_ok_ticket _ _ _ _ _ hok
    subst ht
    by_cases hz : st = 0
    · subst hz
      simp [buildTicket]
    · have hb : (st != 0) = true := by simpa using hz
      simp [buildTicket, hb]

/-- Witness for `satellite_tracking_disables_self_guide` on a row with
satellite tracking enabled. -/
theorem satellite_tracking_disables_self_guide_witness :
    ∃ p, target_grab ⟨2024, 6, 1⟩ sampleRow [] = some p ∧
      ((1 : Int) ≠ 0 → p.selfGuide = 0) ∧ ((1 : Int) = 0 → p.selfGuide = 1) ∧
      ∀ sats isDst fl t, savetxt sats isDst p fl = Except.ok t →
        ¬(t.satellite_tracking = true ∧ t.self_guide = true) :=
  satellite_tracking_disables_self_guide ⟨2024, 6, 1⟩ sampleRow [] 23 59 0 30 1 2
    (by decide) (by decide) rfl rfl

/-! ## Claim C10: exposure count is the constant 100000 -/

/-- Claim C10: every pre-filled ticket records the number of exposures
as the fixed constant 100000, whatever the schedule row holds, and the
serialized ticket's `num` field is 100000. -/
theorem num_exposures_constant (d : Date) (row : ScheduleRow)
    (ephem : List EphemRow) (hs ms he me : Nat) (st tm : Int)
    (hstart : parseClock row.start = some (hs, ms))
    (hend : parseClock row.endT = some (he, me))
    (hsat : row.satelliteTracking = some st)
    (hmode : row.trackingMode = some tm) :
    ∃ p, target_grab d row ephem = some p ∧ p.nExposures = "100000" ∧
      ∀ sats isDst fl t, savetxt sats isDst p fl = Except.ok t →
        t.num = 100000 := by
  unfold target_grab
  rw [hstart, hend, hsat, hmode]
  refine ⟨_, rfl, rfl, ?_⟩
  intro sats isDst fl t hok
  have ht := savetxt_ok_ticket _ _ _ _ _ hok
  subst ht
  simp only [buildTicket]
  decide

/-- Witness for `num_exposures_constant` on a concrete row. -/
theorem num_exposures_constant_witness :
    ∃ p, target_grab ⟨2024, 6, 1⟩ sampleRow [] = some p ∧
      p.nExposures = "100000" ∧
      ∀ sats isDst fl t, savetxt sats isDst p fl = Except.ok t →
        t.num = 100000 :=
  num_exposures_constant ⟨2024, 6, 1⟩ sampleRow [] 23 59 0 30 1 2
    (by decide) (by decide) rfl rfl

/-! ## Claim C5: night-folder computation during batch materialization -/

/-- Claim C5 fails on the code: the night folder is computed per ticket
from the ticket's own start timestamp, not once globally from the
process clock.  A batch of two tickets starting on 2024-06-01 and
2024-06-03 is moved into two different `YYYYMMDD` folders, and the
first ticket's folder differs from the folder the process clock
(2024-06-03, 20:00) would give. -/
theorem batch_folder_counterexample :
    batchFolders "-05:00"
        ["2024-06-01 23:00:00-05:00", "2024-06-03 23:00:00-05:00"]
      = [some "20240601", some "20240603"] ∧
    ("20240601" : String) ≠ "20240603" ∧
    tonightFolder ⟨2024, 6, 3⟩ 20 = "20240603" := by
  decide

/-- Claim C5, amended: each ticket's night folder is computed from that
ticket's own start timestamp — the DST suffix is stripped, the
timestamp parsed, and the date rolled back one day exactly when the
hour is before noon — so tickets of one batch may land in different
folders; the process-clock rule (hour ≥ 12 gives today, else
yesterday) only names the folder in the suggested shell command. -/
theorem ticket_folder_per_ticket (nowDst start : String) (d : Date)
    (h mi s : Nat)
    (hp : parseDateTime (strReplace nowDst "" start) = some (d, h, mi, s)) :
    ticketFolder nowDst start = some (yyyymmdd (if h < 12 then prevDay d else d)) ∧
    ∀ starts, start ∈ starts →
      some (yyyymmdd (if h < 12 then prevDay d else d)) ∈
        batchFolders nowDst starts := by
  have h1 : ticketFolder nowDst start
      = some (yyyymmdd (if h < 12 then prevDay d else d)) := by
    unfold ticketFolder
    rw [hp]
  refine ⟨h1, fun starts hmem => ?_⟩
  unfold batchFolders
  exact List.mem_map.mpr ⟨start, hmem, h1⟩

/-- Witness for `ticket_folder_per_ticket`: a post-midnight start is
filed under the previous day's folder. -/
theorem ticket_folder_per_ticket_witness :
    ticketFolder "-05:00" "2024-06-02 00:30:00-05:00"
      = some (yyyymmdd (if 0 < 12 then prevDay ⟨2024, 6, 2⟩ else ⟨2024, 6, 2⟩)) ∧
    ∀ starts, "2024-06-02 00:30:00-05:00" ∈ starts →
      some (yyyymmdd (if 0 < 12 then prevDay ⟨2024, 6, 2⟩ else ⟨2024, 6, 2⟩)) ∈
        batchFolders "-05:00" starts :=
  ticket_folder_per_ticket "-05:00" "2024-06-02 00:30:00-05:00" ⟨2024, 6, 2⟩
    0 30 0 (by decide)

/-! ## Claim C6: folder collisions keep the first-archived file -/

/-- Claim C6: moving a ticket into a night folder that already holds a
file of the same name deletes the new duplicate and leaves the existing
file unchanged, so materializing the same row twice leaves exactly one
file for that row, with the first-archived content, and no error. -/
theorem folder_collision_first_wins (folder : List (String × String))
    (n c1 c2 : String) (h : (folder.map Prod.fst).contains n = false) :
    moveIntoFolder folder (n, c1) = folder ++ [(n, c1)] ∧
    moveIntoFolder (moveIntoFolder folder (n, c1)) (n, c2) = folder ++ [(n, c1)] ∧
    (moveIntoFolder (moveIntoFolder folder (n, c1)) (n, c2)).filter
      (fun g => g.1 == n) = [(n, c1)] := by
  have h2 : n ∉ folder.map Prod.fst := by simpa using h
  have e1 : moveIntoFolder folder (n, c1) = folder ++ [(n, c1)] := by
    simp [moveIntoFolder, h2]
  have e2 : moveIntoFolder (folder ++ [(n, c1)]) (n, c2) = folder ++ [(n, c1)] := by
    simp [moveIntoFolder]
  have hfil : folder.filter (fun g => g.1 == n) = [] := by
    apply List.filter_eq_nil_iff.mpr
    intro g hg hbeq
    have hg1 : g.1 = n := by simpa using hbeq
    exact h2 (hg1 ▸ List.mem_map_of_mem Prod.fst hg)
  refine ⟨e1, by rw [e1, e2], ?_⟩
  rw [e1, e2, List.filter_append, hfil]
  simp

/-- Witness for `folder_collision_first_wins`: an empty night folder
receiving the same ticket file twice. -/
theorem folder_collision_first_wins_witness :
    moveIntoFolder ([] : List (String × String)) ("TOI1234-01.json", "a")
      = [] ++ [("TOI1234-01.json", "a")] ∧
    moveIntoFolder (moveIntoFolder [] ("TOI1234-01.json", "a"))
        ("TOI1234-01.json", "b") = [] ++ [("TOI1234-01.json", "a")] ∧
    (moveIntoFolder (moveIntoFolder [] ("TOI1234-01.json", "a"))
        ("TOI1234-01.json", "b")).filter (fun g => g.1 == "TOI1234-01.json")
      = [("TOI1234-01.json", "a")] :=
  folder_collision_first_wins [] "TOI1234-01.json" "a" "b" (by decide)

/-! ## Claim C8: schedule listing contents and order -/

/-- The worker of the current `create_list` lists exactly the
qualifying rows of its suffix, in order, rendered with their indices. -/
theorem create_listAux_spec (today : Date) :
    ∀ (sheet : List SheetRow) (x : Nat) (l : List String),
      create_listAux today x sheet = Except.ok l →
      l = ((enumRows x sheet).filter (fun q => rowQualifies today q.2)).map
        (fun q => rowEntry today q.1 q.2) := by
  intro sheet
  induction sheet with
  | nil =>
    intro x l h
    simp only [create_listAux] at h
    have hl := (Except.ok.inj h).symm
    subst hl
    simp [enumRows]
  | cons r rest ih =>
    intro x l h
    simp only [create_listAux] at h
    cases h1 : (normTarget r.target != "nan" && r.nod != "nan") with
    | false =>
      rw [h1] at h
      simp only [Bool.false_eq_true, if_false] at h
      have hq : rowQualifies today r = false := by
        unfold rowQualifies
        rw [h1]
        simp
      simp [enumRows, List.filter_cons, hq, ih (x + 1) l h]
    | true =>
      rw [h1] at h
      simp only [if_true] at h
      cases hpd : parseDate r.nod with
      | none =>
        rw [hpd] at h
        exact absurd h (by simp)
      | some d =>
        rw [hpd] at h
        dsimp only at h
        cases h2 : (dateLe today d && normTarget r.target != "NaN") with
        | false =>
          rw [h2] at h
          simp only [Bool.false_eq_true, if_false] at h
          have hq : rowQualifies today r = false := by
            simp [rowQualifies, hpd, h1, h2]
          simp [enumRows, List.filter_cons, hq, ih (x + 1) l h]
        | true =>
          rw [h2] at h
          simp only [if_true] at h
          cases hrec : create_listAux today (x + 1) rest with
          | error e =>
            rw [hrec] at h
            exact absurd h (by simp)
          | ok tl =>
            rw [hrec] at h
            have hl := (Except.ok.inj h).symm
            subst hl
            have hq : rowQualifies today r = true := by
              simp [rowQualifies, hpd, h1, h2]
            have hent : rowEntry today x r = rowDisplay x r d := by
              simp [rowEntry, hpd, hq]
            simp [enumRows, List.filter_cons, hq, hent, ih (x + 1) tl hrec]

/-- Claim C8, amended: when the current creator's `create_list`
succeeds, its listing is exactly the sheet rows whose night-of date
parses and is today or later and whose target and date cells are
present (a missing cell reads as `"nan"`), in the sheet's natural row
order, each rendered from its own row.  (The legacy creator variant
additionally truncates the listing to the first 11 qualifying rows.) -/
theorem listing_filter_order (today : Date) (sheet : List SheetRow)
    (l : List String) (h : create_list today sheet = Except.ok l) :
    l = listingSpec today sheet :=
  create_listAux_spec today sheet 0 l h

/-- Witness for `listing_filter_order` on a one-row sheet. -/
theorem listing_filter_order_witness :
    ["2025-01-02: ABC_23:00_30s_v_#0"] = listingSpec ⟨2024, 1, 1⟩ [capSheetRow] :=
  listing_filter_order ⟨2024, 1, 1⟩ [capSheetRow]
    ["2025-01-02: ABC_23:00_30s_v_#0"] rfl

/-- Claim C8 fails on the legacy creator: on a sheet of 12 qualifying
rows its listing holds only 11 entries, not exactly the qualifying
rows. -/
theorem legacy_listing_cap_counterexample :
    listingLength (create_list_legacy ⟨2024, 1, 1⟩ (List.replicate 12 capSheetRow)) = 11 ∧
    ((List.replicate 12 capSheetRow).filter
      (rowQualifiesLegacy ⟨2024, 1, 1⟩)).length = 12 := by
  decide

end OmegaLambda
